import Mathlib

/-!
Shallow embedding of the Assistant repository (AJFrio/Assistant) in Lean 4,
used to check the natural-language specification against the code.

Python dictionaries are modelled as insertion-ordered association lists,
Python values as the inductive type PyVal, machine time stamps as integers,
and fallible code as Except.  Each definition is translated from the source
file named in its doc comment.
-/

/-- A Python value, restricted to the shapes the Assistant code manipulates:
strings, None, integers, lists and (insertion-ordered) dictionaries with
string keys. -/
inductive PyVal where
  | vstr (s : String)
  | vnone
  | vbool (b : Bool)
  | vint (n : Int)
  | vlist (xs : List PyVal)
  | vdict (entries : List (String × PyVal))

/-- Python truthiness for PyVal: empty string, None, zero, empty list and
empty dict are falsy, everything else truthy. -/
def PyVal.truthy : PyVal → Bool
  | .vstr s => s ≠ ""
  | .vnone => false
  | .vbool b => b
  | .vint n => n ≠ 0
  | .vlist xs => !xs.isEmpty
  | .vdict m => !m.isEmpty

/-- Python dict.get with an explicit default: first binding for the key, or
the default when the key is absent. -/
def pyDictGet (m : List (String × PyVal)) (k : String) (d : PyVal) : PyVal :=
  match m.lookup k with
  | some v => v
  | none => d

/-- Python d[k] = v on an insertion-ordered dict: overwrite in place when the
key exists, append otherwise. -/
def pyDictSet {β : Type} (m : List (String × β)) (k : String) (v : β) :
    List (String × β) :=
  match m with
  | [] => [(k, v)]
  | (k', v') :: rest =>
      if k' = k then (k, v) :: rest else (k', v') :: pyDictSet rest k v

/-- Characters stripped by Python str.strip() (the ASCII whitespace that can
occur in this code base). -/
def pyIsSpace (c : Char) : Bool :=
  c = ' ' || c = '\t' || c = '\n' || c = '\r' || c = '\x0b' || c = '\x0c'

/-- Python str.strip(): drop leading and trailing whitespace. -/
def pyStrip (s : String) : String :=
  ⟨((s.toList.dropWhile pyIsSpace).reverse.dropWhile pyIsSpace).reverse⟩

/-- Python str.lower() on the ASCII strings this program scans. -/
def pyLower (s : String) : String :=
  ⟨s.toList.map Char.toLower⟩

/-- Whether the list n occurs as a contiguous prefix of h
(helper for the Python substring operator). -/
def listStartsWith : List Char → List Char → Bool
  | [], _ => true
  | _ :: _, [] => false
  | a :: as, b :: bs => a = b && listStartsWith as bs

/-- Whether n occurs contiguously inside h (helper for Python sub in s). -/
def listIsSub (n : List Char) : List Char → Bool
  | [] => listStartsWith n []
  | c :: t => listStartsWith n (c :: t) || listIsSub n t

/-- The Python substring test: needle in hay. -/
def pyInStr (needle hay : String) : Bool :=
  listIsSub needle.toList hay.toList

/-- Python str(x) as used in the f-strings of this code base (the values
interpolated there are strings, None or integers). -/
def PyVal.format : PyVal → String
  | .vstr s => s
  | .vnone => "None"
  | .vbool b => if b then "True" else "False"
  | .vint n => toString n
  | .vlist _ => "<list>"
  | .vdict _ => "<dict>"

/-! ## src/core/config.py -/

/-- The Config singleton of src/core/config.py: the internal _config dict
(whatever _load_config put there, here left arbitrary). -/
structure Config where
  config : List (String × PyVal)

/-- src/core/config.py, Config.get: return self._config.get(key, default). -/
def Config.get (c : Config) (key : String) (default : PyVal) : PyVal :=
  match c.config.lookup key with
  | some v => v
  | none => default

/-- src/core/config.py, Config.validate_required_keys: collect the keys whose
configured values are falsy and, when there are any, return the message
listing them; otherwise return None (modelled as Option.none). -/
def Config.validate_required_keys (c : Config) (keys : List String) :
    Option String :=
  let missing_keys := keys.filter (fun key => !(Config.get c key .vnone).truthy)
  if missing_keys ≠ [] then
    some ("Missing required configuration: " ++ String.intercalate ", " missing_keys)
  else
    none

/-! ## src/api/firebase.py -/

/-- The Firebase server-timestamp marker used in payloads. -/
def serverTimestamp : PyVal := .vdict [(".sv", .vstr "timestamp")]

/-- The error raised by Firebase operations (src/core/exceptions.py,
FirebaseError): a message and optional details.  A missing details argument
is modelled as PyVal.vnone. -/
structure FirebaseError where
  message : String
  details : PyVal

/-- The part of the Firebase client state the embedded operations read
(src/api/firebase.py, Firebase.__init__): the configured descriptor (the
value of config.get("DESCRIPTOR"), possibly None) and the host name. -/
structure FirebaseClient where
  descriptor : PyVal
  computer_name : String

/-- The outcome of the underlying requests call inside
Firebase._make_request: either an HTTP response (status code, raw body text
and the value its JSON body parses to) or a requests.RequestException
carrying a message. -/
inductive HttpOutcome where
  | response (status_code : Nat) (text : String) (json : PyVal)
  | requestException (msg : String)

/-- src/api/firebase.py, Firebase._make_request, response handling: a
RequestException becomes a FirebaseError; a status code outside 200..299
raises a FirebaseError carrying the code and body text; otherwise the parsed
JSON body is returned, or an empty dict when the body text is
whitespace-only.  The method/endpoint dispatch above this code only selects
which requests function produces the response and is abstracted into the
HttpOutcome argument. -/
def Firebase.make_request (outcome : HttpOutcome) : Except FirebaseError PyVal :=
  match outcome with
  | .requestException msg =>
      .error { message := "Firebase request error: " ++ msg, details := .vnone }
  | .response status_code text json =>
      if !(200 ≤ status_code && status_code < 300) then
        .error { message := "Firebase API error: " ++ toString status_code
               , details := .vdict [ ("status_code", .vint status_code)
                                   , ("text", .vstr text) ] }
      else if pyStrip text = "" then .ok (.vdict [])
      else .ok json

/-- The payload Firebase.update_status sends with PUT
devices/\x7bcomputer_name\x7d: the dict written by the source, with the
tasks entry as an Option (Option.none models the Python None / JSON null,
i.e. no value stored) and the descriptor entry present only when one is
included. -/
structure StatusPayload where
  status : String
  last_seen : PyVal
  tasks : Option (List (String × PyVal))
  descriptor : Option PyVal

/-- src/api/firebase.py, Firebase.update_status: build the status payload;
tasks is the empty dict when status is "on" and None otherwise, and the
descriptor is added exactly when self.descriptor is truthy. -/
def Firebase.update_status (fb : FirebaseClient) (status : String) :
    StatusPayload :=
  { status := status
  , last_seen := serverTimestamp
  , tasks := if status = "on" then some [] else none
  , descriptor := if fb.descriptor.truthy then some fb.descriptor else none }

/-- A request issued against the realtime database, recorded as an effect
(endpoint paths as in the source, without the base URL and .json suffix). -/
inductive FbRequest where
  | delete (endpoint : String)
  | put (endpoint : String) (data : PyVal)

/-- src/api/firebase.py, Firebase.complete_task: DELETE the task entry under
devices/\x7bcomputer_name\x7d/tasks/\x7btask_id\x7d, then, when a result was
given, PUT it (with a server completed_at stamp) under completed_tasks; the
function returns True.  The requests it makes are returned as a trace. -/
def Firebase.complete_task (fb : FirebaseClient) (task_id : String)
    (result : Option PyVal) : List FbRequest × Bool :=
  let deleteReq :=
    FbRequest.delete ("devices/" ++ fb.computer_name ++ "/tasks/" ++ task_id)
  match result with
  | none => ([deleteReq], true)
  | some r =>
      ([ deleteReq
       , FbRequest.put ("completed_tasks/" ++ fb.computer_name ++ "/" ++ task_id)
           (.vdict [("result", r), ("completed_at", serverTimestamp)]) ], true)

/-- A registered task handler as the poller calls it: the handler receives
the task id and the task data and either returns a result value or raises an
exception carrying a message. -/
def FbHandler : Type := String → List (String × PyVal) → Except String PyVal

/-- The type field of a polled task: task_data.get("type", "unknown"). -/
def fbTaskType (task_data : List (String × PyVal)) : PyVal :=
  pyDictGet task_data "type" (.vstr "unknown")

/-- Handler lookup self._task_handlers.get(task_type): the handlers dict is
keyed by strings, so a non-string task type finds nothing. -/
def fbLookupHandler (handlers : List (String × FbHandler)) (task_type : PyVal) :
    Option FbHandler :=
  match task_type with
  | .vstr s => handlers.lookup s
  | _ => none

/-- src/api/firebase.py, Firebase._handle_task: run the registered handler
for the task type (or the default handler) and complete the task with its
result, completing with an error/failed record when the handler raises; when
neither exists, complete the task with the rejection record naming the
unhandled type.  Returns the trace of database requests made. -/
def Firebase.handle_task (fb : FirebaseClient)
    (handlers : List (String × FbHandler)) (default_handler : Option FbHandler)
    (task_id : String) (task_data : List (String × PyVal)) : List FbRequest :=
  let task_type := fbTaskType task_data
  match fbLookupHandler handlers task_type with
  | some handler =>
      match handler task_id task_data with
      | .ok result => (Firebase.complete_task fb task_id (some result)).1
      | .error e =>
          (Firebase.complete_task fb task_id
            (some (.vdict [("error", .vstr e), ("status", .vstr "failed")]))).1
  | none =>
      match default_handler with
      | some handler =>
          match handler task_id task_data with
          | .ok result => (Firebase.complete_task fb task_id (some result)).1
          | .error e =>
              (Firebase.complete_task fb task_id
                (some (.vdict [("error", .vstr e), ("status", .vstr "failed")]))).1
      | none =>
          (Firebase.complete_task fb task_id
            (some (.vdict
              [ ("error", .vstr ("No handler for task type: " ++ task_type.format))
              , ("status", .vstr "rejected") ]))).1

/-! ## src/tasks/processor.py -/

/-- The task_data record built by TaskProcessor.add_task and mutated by the
worker; the dict has a fixed key set, so it is embedded as a structure.  The
started_at / completed_at / result entries are absent (Option.none) until the
worker adds them.  Machine time stamps (time.time()) are modelled as
integers. -/
structure TaskData where
  id : String
  type : String
  params : PyVal
  status : String
  created_at : Int
  priority : Int
  started_at : Option Int
  completed_at : Option Int
  result : Option PyVal

/-- queue.Queue as the processor uses it: put appends at the back, get takes
the front (FIFO).  This is the class the source constructs; the worker's
comment speaks of a priority queue, but queue.Queue ignores the priority
component of the items it is given. -/
structure PyQueue (α : Type) where
  items : List α

/-- queue.Queue.put: append at the back. -/
def PyQueue.put {α : Type} (q : PyQueue α) (x : α) : PyQueue α :=
  ⟨q.items ++ [x]⟩

/-- queue.Queue.get: remove and return the front element, or block (here:
none) when empty. -/
def PyQueue.get {α : Type} (q : PyQueue α) : Option (α × PyQueue α) :=
  match q.items with
  | [] => none
  | x :: rest => some (x, ⟨rest⟩)

/-- src/tasks/processor.py, TaskProcessor.add_task: build the task_data
record (status pending, created_at the current time) and put
(priority, task_data) on the queue, returning True.  The enqueue-failure
branch only triggers when queue.Queue.put itself raises, which the queue
model cannot do. -/
def TaskProcessor.add_task (q : PyQueue (Int × TaskData)) (task_id : String)
    (task_type : String) (params : PyVal) (priority : Int) (now : Int) :
    PyQueue (Int × TaskData) × Bool :=
  let task_data : TaskData :=
    { id := task_id, type := task_type, params := params, status := "pending"
    , created_at := now, priority := priority
    , started_at := none, completed_at := none, result := none }
  (q.put (priority, task_data), true)

/-- The order in which the worker loop of
TaskProcessor._process_tasks_worker begins processing the queued tasks: it
repeatedly takes self.task_queue.get() and starts the task it obtains.  Each
entry records the priority component and the task id.  The fuel argument
bounds the number of loop iterations; draining uses the queue length. -/
def TaskProcessor.beginOrderAux : Nat → PyQueue (Int × TaskData) →
    List (Int × String)
  | 0, _ => []
  | fuel + 1, q =>
      match q.get with
      | none => []
      | some ((priority, task_data), q') =>
          (priority, task_data.id) :: TaskProcessor.beginOrderAux fuel q'

/-- The begin-processing order of every task currently queued. -/
def TaskProcessor.beginOrder (q : PyQueue (Int × TaskData)) :
    List (Int × String) :=
  TaskProcessor.beginOrderAux q.items.length q

/-- The fixed result-cache capacity (TaskProcessor.__init__,
self._max_cache_size = 100). -/
def TaskProcessor.max_cache_size : Nat := 100

/-- The sort key used when trimming the cache:
self._results_cache[k].get("completed_at", 0). -/
def TaskData.completedAtKey (td : TaskData) : Int :=
  td.completed_at.getD 0

/-- Stable insertion into a list sorted by the boolean relation le
(helper for Python sorted, which is stable). -/
def insertByLe {α : Type} (le : α → α → Bool) (x : α) : List α → List α
  | [] => [x]
  | y :: ys => if le x y then x :: y :: ys else y :: insertByLe le x ys

/-- Stable insertion sort by the boolean relation le (Python sorted with a
key function). -/
def sortByLe {α : Type} (le : α → α → Bool) : List α → List α
  | [] => []
  | x :: xs => insertByLe le x (sortByLe le xs)

/-- src/tasks/processor.py, TaskProcessor._cache_result: store the record
under its task id; when the cache has grown past the capacity, sort its keys
by the completed_at entry (ascending, ties in insertion order) and delete
the oldest keys down to the capacity.  The cache dict is the association
list; sorting the entries and projecting the keys is the same computation as
sorting the key list with the lookup as key function. -/
def TaskProcessor.cache_result (cache : List (String × TaskData))
    (task_id : String) (result : TaskData) : List (String × TaskData) :=
  let cache := pyDictSet cache task_id result
  if cache.length > TaskProcessor.max_cache_size then
    let oldest_keys :=
      (sortByLe (fun a b => a.2.completedAtKey ≤ b.2.completedAtKey) cache).map
        Prod.fst
    let toDelete := oldest_keys.take (cache.length - TaskProcessor.max_cache_size)
    cache.filter (fun kv => !toDelete.contains kv.1)
  else cache

/-! ## src/tasks/handlers.py -/

/-- JSON whitespace for the json.loads model. -/
def jsonWs (c : Char) : Bool :=
  c = ' ' || c = '\t' || c = '\n' || c = '\r'

/-- Body of a JSON string literal after the opening quote: the characters up
to the closing quote.  Escape sequences are outside the fragment this code
base exchanges and are treated as parse failures. -/
def jsonStringBody : List Char → Option (List Char × List Char)
  | [] => none
  | '"' :: rest => some ([], rest)
  | '\\' :: _ => none
  | c :: rest =>
      match jsonStringBody rest with
      | some (s, r) => some (c :: s, r)
      | none => none

/-- A JSON string literal including its opening quote. -/
def jsonParseString (cs : List Char) : Option (String × List Char) :=
  match cs with
  | '"' :: rest => (jsonStringBody rest).map (fun p => (⟨p.1⟩, p.2))
  | _ => none

/-- Digits of a decimal literal folded into a natural number. -/
def jsonDigitsToNat (ds : List Char) : Nat :=
  ds.foldl (fun n c => n * 10 + (c.toNat - 48)) 0

/-- A JSON integer literal (optional minus sign and digits). -/
def jsonParseInt (cs : List Char) : Option (Int × List Char) :=
  match cs with
  | '-' :: rest =>
      let ds := rest.takeWhile Char.isDigit
      if ds.isEmpty then none
      else some (-(jsonDigitsToNat ds : Int), rest.dropWhile Char.isDigit)
  | _ =>
      let ds := cs.takeWhile Char.isDigit
      if ds.isEmpty then none
      else some ((jsonDigitsToNat ds : Int), cs.dropWhile Char.isDigit)

mutual

/-- Python json.loads, modelled on the JSON fragment the task parameters of
this application use: objects, arrays, escape-free strings, integers, true,
false and null.  Anything outside the fragment (floats, escapes, exotic
whitespace) is a parse failure.  The fuel bounds recursion depth and is
larger than any run the input length allows. -/
def jsonParseVal : Nat → List Char → Option (PyVal × List Char)
  | 0, _ => none
  | fuel + 1, cs =>
      match cs.dropWhile jsonWs with
      | 'n' :: 'u' :: 'l' :: 'l' :: rest => some (.vnone, rest)
      | 't' :: 'r' :: 'u' :: 'e' :: rest => some (.vbool true, rest)
      | 'f' :: 'a' :: 'l' :: 's' :: 'e' :: rest => some (.vbool false, rest)
      | '{' :: rest =>
          (match rest.dropWhile jsonWs with
           | '}' :: rest2 => some (.vdict [], rest2)
           | rest2 => jsonParseMembers fuel [] rest2)
      | '[' :: rest =>
          (match rest.dropWhile jsonWs with
           | ']' :: rest2 => some (.vlist [], rest2)
           | rest2 => jsonParseItems fuel [] rest2)
      | '"' :: rest => (jsonStringBody rest).map (fun p => (.vstr ⟨p.1⟩, p.2))
      | rest => (jsonParseInt rest).map (fun p => (.vint p.1, p.2))

/-- The members of a JSON object after its opening brace (at least one). -/
def jsonParseMembers : Nat → List (String × PyVal) → List Char →
    Option (PyVal × List Char)
  | 0, _, _ => none
  | fuel + 1, acc, cs =>
      match jsonParseString (cs.dropWhile jsonWs) with
      | none => none
      | some (key, rest) =>
          match rest.dropWhile jsonWs with
          | ':' :: rest2 =>
              (match jsonParseVal fuel rest2 with
               | none => none
               | some (v, rest3) =>
                   match rest3.dropWhile jsonWs with
                   | ',' :: rest4 => jsonParseMembers fuel (acc ++ [(key, v)]) rest4
                   | '}' :: rest4 => some (.vdict (acc ++ [(key, v)]), rest4)
                   | _ => none)
          | _ => none

/-- The items of a JSON array after its opening bracket (at least one). -/
def jsonParseItems : Nat → List PyVal → List Char → Option (PyVal × List Char)
  | 0, _, _ => none
  | fuel + 1, acc, cs =>
      match jsonParseVal fuel cs with
      | none => none
      | some (v, rest) =>
          match rest.dropWhile jsonWs with
          | ',' :: rest2 => jsonParseItems fuel (acc ++ [v]) rest2
          | ']' :: rest2 => some (.vlist (acc ++ [v]), rest2)
          | _ => none

end

/-- Python json.loads on a whole string: parse one value and require only
whitespace after it; None models a json.JSONDecodeError. -/
def jsonLoads (s : String) : Option PyVal :=
  match jsonParseVal (s.length + 2) s.toList with
  | some (v, rest) => if (rest.dropWhile jsonWs).isEmpty then some v else none
  | none => none

/-- The external operations the task handlers call (automation, browser,
Outlook, OpenAI, clock).  Each can raise, modelled as Except with the
exception text.  A handler embedding is parameterised by this environment so
its parameter handling and error paths can be studied for any behaviour of
the outside world. -/
structure HandlerEnv where
  focus_application : String → Except String PyVal
  open_app : PyVal → Except String PyVal
  run_command : PyVal → Except String String
  generate_chat_completion : String → String → Except String String
  fetch_webpage_content : String → Except String (String × String)
  outlook_send : List String → List String → PyVal → PyVal → Except String Unit
  browser_new : Except String Unit
  browser_navigate : String → Except String Unit
  time_str : String
  date_str : String
  os_name : String

/-- The outer except-block of every handler: any exception escaping the body
is re-raised as a TaskError whose message is the given prefix followed by
the original exception text. -/
def wrapTaskError (pre : String) : Except String PyVal → Except String PyVal
  | .ok v => .ok v
  | .error e => .error (pre ++ e)

/-- Python obj.get(key) where obj ought to be a dict: on a dict the binding
or None, on anything else the AttributeError Python raises. -/
def pyGetMethod (v : PyVal) (k : String) : Except String PyVal :=
  match v with
  | .vdict m => .ok (pyDictGet m k .vnone)
  | _ => .error "object has no attribute get"

/-- Python obj.get(key, default) where obj ought to be a dict. -/
def pyGetMethodD (v : PyVal) (k : String) (d : PyVal) : Except String PyVal :=
  match v with
  | .vdict m => .ok (pyDictGet m k d)
  | _ => .error "object has no attribute get"

/-- message[:50] + ("..." if len(message) > 50 else ""): slicing demands a
string; anything else raises a TypeError. -/
def pyPreview (v : PyVal) : Except String PyVal :=
  match v with
  | .vstr s =>
      .ok (.vstr (String.mk (s.toList.take 50) ++ if s.length > 50 then "..." else ""))
  | _ => .error "object is not subscriptable"

/-- Python s.split(sep) followed by stripping each piece, as the send_email
handler does with its comma-separated recipient lists. -/
def pySplitStrip (s : String) : List String :=
  (s.splitOn ",").map pyStrip

/-- src/tasks/handlers.py, handle_send_message, from the extraction of
message and person onwards (the part of the function after its
string-params normalization). -/
def send_message_core (env : HandlerEnv) (params : PyVal) :
    Except String PyVal :=
  match pyGetMethod params "message" with
  | .error e => .error e
  | .ok message =>
      match pyGetMethod params "person" with
      | .error e => .error e
      | .ok person =>
          if !message.truthy || !person.truthy then
            .error "Missing required parameters: message or person"
          else
            match env.focus_application "Teams" with
            | .error e => .error e
            | .ok teams_window =>
                if !teams_window.truthy then
                  .error "Failed to focus Teams application"
                else
                  match pyPreview message with
                  | .error e => .error e
                  | .ok preview =>
                      .ok (.vdict [ ("status", .vstr "sent")
                                  , ("recipient", person)
                                  , ("message_preview", preview) ])

/-- src/tasks/handlers.py, handle_send_message: string params must parse as
JSON (a raw string is an invalid-format error); then message and person are
required, Teams must focus, and the result carries recipient and a preview
of the message. -/
def handle_send_message (env : HandlerEnv) (task_id : String)
    (task_data : List (String × PyVal)) : Except String PyVal :=
  wrapTaskError "Send message error: " (
    match pyDictGet task_data "params" (.vdict []) with
    | .vstr s =>
        (match jsonLoads s with
         | some v => send_message_core env v
         | none => .error "Invalid parameters format")
    | p => send_message_core env p)

/-- src/tasks/handlers.py, handle_open_app: a string param is used directly
as the app name, a dict param supplies app_name, anything else is an
invalid-format error; a falsy app name is a missing-parameter error; then
the app is opened and reported. -/
def handle_open_app (env : HandlerEnv) (task_id : String)
    (task_data : List (String × PyVal)) : Except String PyVal :=
  wrapTaskError "Open app error: " (
    let params := pyDictGet task_data "params" (.vdict [])
    let app_name? : Except String PyVal :=
      match params with
      | .vstr s => .ok (.vstr s)
      | .vdict m => .ok (pyDictGet m "app_name" .vnone)
      | _ => .error "Invalid parameters format"
    match app_name? with
    | .error e => .error e
    | .ok app_name =>
        if !app_name.truthy then .error "Missing required parameter: app_name"
        else
          match env.open_app app_name with
          | .error e => .error e
          | .ok _ => .ok (.vdict [("app_opened", app_name)]))

/-- src/tasks/handlers.py, handle_check_email: params are never read; the
browser session navigates to Outlook and the placeholder result is
returned. -/
def handle_check_email (env : HandlerEnv) (task_id : String)
    (task_data : List (String × PyVal)) : Except String PyVal :=
  wrapTaskError "Check email error: " (
    match env.browser_new with
    | .error e => .error e
    | .ok _ =>
        match env.browser_navigate "https://outlook.office365.com/mail/" with
        | .error e => .error e
        | .ok _ =>
            .ok (.vdict [ ("status", .vstr "completed")
                        , ("email_count", .vint 0)
                        , ("email_summary", .vstr "Email checking not fully implemented") ]))

/-- src/tasks/handlers.py, handle_send_email, from the extraction of the
recipient fields onwards (the part of the function after its string-params
normalization). -/
def send_email_core (env : HandlerEnv) (params : PyVal) :
    Except String PyVal :=
  match pyGetMethod params "people" with
        | .error e => .error e
        | .ok people =>
            match pyGetMethodD params "cc" (.vstr "") with
            | .error e => .error e
            | .ok cc =>
                match pyGetMethod params "subject" with
                | .error e => .error e
                | .ok subject =>
                    match pyGetMethod params "message" with
                    | .error e => .error e
                    | .ok message =>
                        if !people.truthy || !subject.truthy || !message.truthy then
                          .error "Missing required parameters: people, subject, or message"
                        else
                          match people with
                          | .vstr peopleStr =>
                              let recipients := pySplitStrip peopleStr
                              let ccSplit : Except String (List String) :=
                                if cc.truthy then
                                  match cc with
                                  | .vstr ccStr => .ok (pySplitStrip ccStr)
                                  | _ => .error "object has no attribute split"
                                else .ok []
                              match ccSplit with
                              | .error e => .error e
                              | .ok cc_recipients =>
                                  match env.outlook_send recipients cc_recipients
                                      subject message with
                                  | .error e => .error e
                                  | .ok _ =>
                                      .ok (.vdict
                                        [ ("status", .vstr "sent")
                                        , ("recipients", .vlist (recipients.map PyVal.vstr))
                                        , ("cc", .vlist (cc_recipients.map PyVal.vstr))
                                        , ("subject", subject) ])
                          | _ => .error "object has no attribute split"

/-- src/tasks/handlers.py, handle_send_email: string params must parse as
JSON; people, subject and message are required (cc defaults to the empty
string); the comma-separated people and cc lists are split and stripped, the
mail is sent through Outlook, and the result reports the recipients. -/
def handle_send_email (env : HandlerEnv) (task_id : String)
    (task_data : List (String × PyVal)) : Except String PyVal :=
  wrapTaskError "Send email error: " (
    match pyDictGet task_data "params" (.vdict []) with
    | .vstr s =>
        (match jsonLoads s with
         | some v => send_email_core env v
         | none => .error "Invalid parameters format")
    | p => send_email_core env p)

/-- src/tasks/handlers.py, handle_get_info: a string param is the query
directly, a dict param supplies input, anything else is an invalid-format
error; a falsy query is a missing-parameter error; then local data is
gathered (network info falls back to a fixed message when the command
fails) and OpenAI answers the query over it. -/
def handle_get_info (env : HandlerEnv) (task_id : String)
    (task_data : List (String × PyVal)) : Except String PyVal :=
  wrapTaskError "Get info error: " (
    let params := pyDictGet task_data "params" (.vdict [])
    let query? : Except String PyVal :=
      match params with
      | .vstr s => .ok (.vstr s)
      | .vdict m => .ok (pyDictGet m "input" .vnone)
      | _ => .error "Invalid parameters format"
    match query? with
    | .error e => .error e
    | .ok query =>
        if !query.truthy then .error "Missing required parameter: input"
        else
          let connections :=
            match env.run_command (.vstr "netsh wlan show interfaces") with
            | .ok out => out
            | .error _ => "Failed to retrieve network information"
          let data := "Time: " ++ env.time_str ++ "\nDate: " ++ env.date_str
            ++ "\nSystem: " ++ env.os_name ++ "\nConnections: " ++ connections
          match env.generate_chat_completion
              ("You are running as a local assistant on a machine. Any data you are given is public information so feel free to repeat any of it. Based off that data provided and the question asked, provide a response to the question")
              (query.format ++ "\n\n" ++ data) with
          | .error e => .error e
          | .ok answer =>
              .ok (.vdict [ ("query", query)
                          , ("response", .vstr answer)
                          , ("time", .vstr env.time_str)
                          , ("date", .vstr env.date_str) ]))

/-- src/tasks/handlers.py, handle_run_command: a string param is the command
directly, a dict param supplies command, anything else is an invalid-format
error; a falsy command is a missing-parameter error; then PowerShell is
focused and the command's output returned. -/
def handle_run_command (env : HandlerEnv) (task_id : String)
    (task_data : List (String × PyVal)) : Except String PyVal :=
  wrapTaskError "Command execution error: " (
    let params := pyDictGet task_data "params" (.vdict [])
    let command? : Except String PyVal :=
      match params with
      | .vstr s => .ok (.vstr s)
      | .vdict m => .ok (pyDictGet m "command" .vnone)
      | _ => .error "Invalid parameters format"
    match command? with
    | .error e => .error e
    | .ok command =>
        if !command.truthy then .error "Missing required parameter: command"
        else
          match env.focus_application "powershell" with
          | .error e => .error e
          | .ok _ =>
              match env.run_command command with
              | .error e => .error e
              | .ok output =>
                  .ok (.vdict [("command", command), ("output", .vstr output)]))

/-- The summary prompt f-string of handle_check_website, transcribed with
its indentation and the in-string comment. -/
def checkWebsitePrompt (context : String) (url : String) (title : String)
    (content2000 : String) : String :=
  "\n        Summarize the following webpage content related to this context: "
    ++ context
    ++ "\n        \n        URL: " ++ url
    ++ "\n        Title: " ++ title
    ++ "\n        \n        Content:\n        " ++ content2000
    ++ "  # Limit content to avoid token limits\n        "

/-- src/tasks/handlers.py, handle_check_website, from the extraction of url
and context onwards (the part of the function after its string-params
normalization). -/
def check_website_core (env : HandlerEnv) (params : PyVal) :
    Except String PyVal :=
  match pyGetMethod params "url" with
        | .error e => .error e
        | .ok url0 =>
            match pyGetMethod params "context" with
            | .error e => .error e
            | .ok context =>
                if !url0.truthy then .error "Missing required parameter: url"
                else
                  match url0 with
                  | .vstr u0 =>
                      let url := if u0.startsWith "http" then u0 else "https://" ++ u0
                      match env.fetch_webpage_content url with
                      | .error e => .error e
                      | .ok (title, content) =>
                          match env.generate_chat_completion
                              ("You are a helpful assistant that summarizes webpage content. Focus on the most relevant information related to the user's context.")
                              (checkWebsitePrompt context.format url title
                                (String.mk (content.toList.take 2000))) with
                          | .error e => .error e
                          | .ok summary =>
                              .ok (.vdict [ ("url", .vstr url)
                                          , ("title", .vstr title)
                                          , ("summary", .vstr summary) ])
                  | _ => .error "object has no attribute startswith"

/-- src/tasks/handlers.py, handle_check_website: string params must parse as
JSON; url is required (context is optional), https:// is prefixed when the
url does not start with http, the page is fetched and OpenAI summarises
it. -/
def handle_check_website (env : HandlerEnv) (task_id : String)
    (task_data : List (String × PyVal)) : Except String PyVal :=
  wrapTaskError "Website check error: " (
    match pyDictGet task_data "params" (.vdict []) with
    | .vstr s =>
        (match jsonLoads s with
         | some v => check_website_core env v
         | none => .error "Invalid parameters format")
    | p => check_website_core env p)

/-- src/tasks/handlers.py, handle_use_cursor: a string param is the prompt
directly, a dict param supplies prompt, anything else is an invalid-format
error; a falsy prompt is a missing-parameter error; Cursor must focus, and
the prompt is acknowledged. -/
def handle_use_cursor (env : HandlerEnv) (task_id : String)
    (task_data : List (String × PyVal)) : Except String PyVal :=
  wrapTaskError "Cursor interaction error: " (
    let params := pyDictGet task_data "params" (.vdict [])
    let prompt? : Except String PyVal :=
      match params with
      | .vstr s => .ok (.vstr s)
      | .vdict m => .ok (pyDictGet m "prompt" .vnone)
      | _ => .error "Invalid parameters format"
    match prompt? with
    | .error e => .error e
    | .ok prompt =>
        if !prompt.truthy then .error "Missing required parameter: prompt"
        else
          match env.focus_application "Cursor" with
          | .error e => .error e
          | .ok cursor_window =>
              if !cursor_window.truthy then
                .error "Failed to focus Cursor application"
              else
                .ok (.vdict [("status", .vstr "completed"), ("prompt", prompt)]))

/-! ## src/utils/image.py -/

/-- Python int(x): truncation toward zero.  The float arithmetic of the
source is modelled as exact rational arithmetic. -/
def pyInt (q : ℚ) : Int :=
  if 0 ≤ q then ⌊q⌋ else ⌈q⌉

/-- int(a * (b / c)) as resize_image computes a missing dimension. -/
def scaledDim (a b c : Int) : Int :=
  pyInt ((a : ℚ) * ((b : ℚ) / (c : ℚ)))

/-- src/utils/image.py, resize_image, on an image modelled by its
dimensions: at least one target dimension is required (ValueError
otherwise); with keep_aspect_ratio the missing dimension is computed from
the current aspect ratio; a still-unset or zero dimension then falls back to
the current one (Python: width = width or current_width); the image is
resized to the resulting pair.  Division by a zero current dimension, a
ZeroDivisionError in Python, is outside the embedding's theorems. -/
def resize_image (current_width current_height : Int)
    (width height : Option Int) (keep_aspect_ratio : Bool) :
    Except String (Int × Int) :=
  match width, height with
  | none, none => .error "At least one of width or height must be provided"
  | w0, h0 =>
      let wh :=
        if keep_aspect_ratio then
          match w0, h0 with
          | none, some h => (some (scaledDim current_width h current_height), some h)
          | some w, none => (some w, some (scaledDim current_height w current_width))
          | w, h => (w, h)
        else (w0, h0)
      let w2 := match wh.1 with
        | some w => if w ≠ 0 then w else current_width
        | none => current_width
      let h2 := match wh.2 with
        | some h => if h ≠ 0 then h else current_height
        | none => current_height
      .ok (w2, h2)

/-! ## src/main.py (AssistantGUI.process_input, model round-trip) -/

/-- The keyword list of src/main.py line 227. -/
def image_keywords : List String :=
  ["screen", "see", "look", "show", "image", "pic", "read", "document", "chat", "ask"]

/-- src/main.py line 228: any(keyword in user_input.lower() for keyword in
image_keywords). -/
def needs_image (user_input : String) : Bool :=
  image_keywords.any (fun keyword => pyInStr keyword (pyLower user_input))

/-- The content of the outgoing user message: plain text, or text plus an
image-url part. -/
inductive ChatContent where
  | text (s : String)
  | textWithImage (s : String) (image_url : String)

/-- Whether an image part is attached. -/
def ChatContent.hasImage : ChatContent → Bool
  | .text _ => false
  | .textWithImage _ _ => true

/-- src/main.py lines 243-249: the user message appended to the model
request carries the screenshot as a data url exactly when needs_image
holds.  screenshot_b64 stands for getImage(), the base64-encoded PNG
screenshot. -/
def build_user_message (user_input : String) (screenshot_b64 : String) :
    ChatContent :=
  if needs_image user_input then
    .textWithImage user_input ("data:image/png;base64," ++ screenshot_b64)
  else .text user_input

/-! ## src/ui/gui.py -/

/-- The observable state AssistantGUI.process_input touches: the text in the
input field, the transcript lines inserted into the chat display, the
chat_history list, and the inputs handed to spawned worker threads. -/
structure GuiState where
  input_field : String
  chat_display : List String
  chat_history : List (String × String)
  threads_started : List String

/-- src/ui/gui.py, AssistantGUI.display_message: append the message to
chat_history with its role and insert the prefixed line into the chat
display. -/
def AssistantGUI.display_message (assistant_name : String) (st : GuiState)
    (message : String) (is_user : Bool) : GuiState :=
  let pre := if is_user then "You: " else assistant_name ++ ": "
  { st with
    chat_history :=
      st.chat_history ++ [(if is_user then "user" else "assistant", message)]
    chat_display := st.chat_display ++ [pre ++ message ++ "\n\n"] }

/-- src/ui/gui.py, AssistantGUI.process_input: strip the input field; an
empty result returns at once; otherwise the message is displayed, the field
cleared, and a worker thread started on the input. -/
def AssistantGUI.process_input (assistant_name : String) (st : GuiState) :
    GuiState :=
  let user_input := pyStrip st.input_field
  if user_input = "" then st
  else
    let st1 := AssistantGUI.display_message assistant_name st user_input true
    let st2 := { st1 with input_field := "" }
    { st2 with threads_started := st2.threads_started ++ [user_input] }

/-! ## Concrete inputs used by the claim theorems -/

/-- An environment in which every external operation succeeds (the error
paths under study are reached before or regardless of it). -/
def envC2 : HandlerEnv :=
  { focus_application := fun _ => .ok (.vstr "win")
  , open_app := fun _ => .ok .vnone
  , run_command := fun _ => .ok "out"
  , generate_chat_completion := fun _ _ => .ok "answer"
  , fetch_webpage_content := fun _ => .ok ("Title", "Content")
  , outlook_send := fun _ _ _ _ => .ok ()
  , browser_new := .ok ()
  , browser_navigate := fun _ => .ok ()
  , time_str := "12:00", date_str := "2026-10-12", os_name := "nt" }

/-- A Firebase client with no descriptor on host PC. -/
def fbC3 : FirebaseClient := { descriptor := .vnone, computer_name := "PC" }

/-- The queue of the C1 scenario: three tasks enqueued with priorities 5, 1
and 3, in that insertion order, starting from an empty queue. -/
def queueC1 : PyQueue (Int × TaskData) :=
  let q0 : PyQueue (Int × TaskData) := ⟨[]⟩
  let q1 := (TaskProcessor.add_task q0 "a" "get_info" .vnone 5 1000).1
  let q2 := (TaskProcessor.add_task q1 "b" "get_info" .vnone 1 1001).1
  (TaskProcessor.add_task q2 "c" "get_info" .vnone 3 1002).1

/-- The completed task_data record of the i-th task of the C5 scenario: task
ids are distinct and completion times strictly increase, as produced by the
worker completing 105 tasks one after the other. -/
def completedC5 (i : Nat) : TaskData :=
  { id := toString i, type := "get_info", params := .vnone
  , status := "completed", created_at := (i : Int), priority := 0
  , started_at := some (i : Int), completed_at := some (i : Int)
  , result := some (.vdict []) }

/-- The result cache left by caching the results of 105 tasks that complete
in order, starting from an empty cache. -/
def scenarioC5 : List (String × TaskData) :=
  (List.range 105).foldl
    (fun cache i => TaskProcessor.cache_result cache (toString i) (completedC5 i))
    []

/-- A completed task record used to instantiate the C5 invariant. -/
def tdC5 : TaskData := completedC5 0

/-- The gui state of the C10 witness: a whitespace-only input field. -/
def stC10 : GuiState :=
  { input_field := "   \t  ", chat_display := ["CAS-E: Hello AJ\n\n"]
  , chat_history := [("assistant", "Hello AJ")], threads_started := [] }

/-! ## Helper lemmas -/

theorem insertByLe_perm {α : Type} (le : α → α → Bool) (x : α) (l : List α) :
    (insertByLe le x l).Perm (x :: l) := by
  induction l with
  | nil => exact List.Perm.refl _
  | cons y ys ih =>
      cases hle : le x y with
      | true => simp [insertByLe, hle]
      | false =>
          simp only [insertByLe, hle, Bool.false_eq_true, if_false]
          exact (ih.cons y).trans (List.Perm.swap x y ys)

theorem sortByLe_perm {α : Type} (le : α → α → Bool) (l : List α) :
    (sortByLe le l).Perm l := by
  induction l with
  | nil => exact List.Perm.refl _
  | cons x xs ih =>
      exact (insertByLe_perm le x (sortByLe le xs)).trans (ih.cons x)

theorem pyDictSet_length_le {β : Type} (m : List (String × β)) (k : String)
    (v : β) : (pyDictSet m k v).length ≤ m.length + 1 := by
  induction m with
  | nil => simp [pyDictSet]
  | cons kv rest ih =>
      obtain ⟨k1, v1⟩ := kv
      by_cases h : k1 = k <;> simp [pyDictSet, h] <;> omega

theorem pyDictSet_mem_map_fst {β : Type} (m : List (String × β)) (k a : String)
    (v : β) :
    a ∈ (pyDictSet m k v).map Prod.fst ↔ a ∈ m.map Prod.fst ∨ a = k := by
  induction m with
  | nil => simp [pyDictSet]
  | cons kv rest ih =>
      obtain ⟨k1, v1⟩ := kv
      by_cases h : k1 = k
      · subst h; simp [pyDictSet]; tauto
      · simp [pyDictSet, h, ih]; tauto

theorem pyDictSet_nodup_keys {β : Type} (m : List (String × β)) (k : String)
    (v : β) (hnd : (m.map Prod.fst).Nodup) :
    ((pyDictSet m k v).map Prod.fst).Nodup := by
  induction m with
  | nil => simp [pyDictSet]
  | cons kv rest ih =>
      obtain ⟨k1, v1⟩ := kv
      simp only [List.map_cons, List.nodup_cons] at hnd
      obtain ⟨hk1, hndr⟩ := hnd
      by_cases h : k1 = k
      · subst h
        have hset : pyDictSet ((k1, v1) :: rest) k1 v = (k1, v) :: rest := by
          simp [pyDictSet]
        rw [hset]
        simp only [List.map_cons, List.nodup_cons]
        exact ⟨hk1, hndr⟩
      · simp only [pyDictSet, if_neg h, List.map_cons, List.nodup_cons]
        refine ⟨?_, ih hndr⟩
        rw [pyDictSet_mem_map_fst]
        rintro (hmem | rfl)
        · exact hk1 hmem
        · exact h rfl

theorem filter_drop_one_key_length {β : Type} (m : List (String × β))
    (k : String) (hnd : (m.map Prod.fst).Nodup) (hmem : k ∈ m.map Prod.fst) :
    (m.filter (fun kv => !([k].contains kv.1))).length = m.length - 1 := by
  induction m with
  | nil => simp at hmem
  | cons kv rest ih =>
      obtain ⟨k1, v1⟩ := kv
      simp only [List.map_cons, List.nodup_cons] at hnd
      obtain ⟨hk1, hndr⟩ := hnd
      by_cases h : k1 = k
      · subst h
        have hrest : rest.filter (fun kv => !([k1].contains kv.1)) = rest := by
          apply List.filter_eq_self.mpr
          intro a ha
          have hne : a.1 ≠ k1 :=
            fun he => hk1 (he ▸ List.mem_map_of_mem Prod.fst ha)
          simp [List.contains, hne]
        simp only [List.filter_cons]
        rw [show (!([k1].contains (k1, v1).1)) = false from by simp [List.contains]]
        simp only [Bool.false_eq_true, if_false, hrest]
        simp
      · have hmem' : k ∈ rest.map Prod.fst := by
          rcases List.mem_cons.mp hmem with h' | h'
          · exact absurd h'.symm h
          · exact h'
        have hpos : 0 < rest.length :=
          List.length_pos.mpr (by rintro rfl; simp at hmem')
        have hrec := ih hndr hmem'
        simp only [List.filter_cons]
        rw [show (!([k].contains (k1, v1).1)) = true from by simp [List.contains, h]]
        simp only [if_true, List.length_cons, hrec]
        omega

theorem cache_result_length_le (cache : List (String × TaskData)) (tid : String)
    (r : TaskData) (hnd : (cache.map Prod.fst).Nodup)
    (hlen : cache.length ≤ 100) :
    (TaskProcessor.cache_result cache tid r).length ≤ 100 := by
  unfold TaskProcessor.cache_result
  by_cases hb : (pyDictSet cache tid r).length > TaskProcessor.max_cache_size
  · rw [if_pos hb]
    have hnd' : ((pyDictSet cache tid r).map Prod.fst).Nodup :=
      pyDictSet_nodup_keys cache tid r hnd
    have hlen' := pyDictSet_length_le cache tid r
    have h101 : (pyDictSet cache tid r).length = 101 := by
      unfold TaskProcessor.max_cache_size at hb; omega
    have hperm :
        (sortByLe (fun a b => a.2.completedAtKey ≤ b.2.completedAtKey)
            (pyDictSet cache tid r)).Perm (pyDictSet cache tid r) :=
      sortByLe_perm _ _
    have hkeylen :
        ((sortByLe (fun a b => a.2.completedAtKey ≤ b.2.completedAtKey)
            (pyDictSet cache tid r)).map Prod.fst).length = 101 := by
      rw [List.length_map, hperm.length_eq, h101]
    obtain ⟨k0, t, hk⟩ :=
      List.exists_cons_of_ne_nil
        (show (sortByLe (fun a b => a.2.completedAtKey ≤ b.2.completedAtKey)
            (pyDictSet cache tid r)).map Prod.fst ≠ [] from by
          intro hnil; rw [hnil] at hkeylen; simp at hkeylen)
    have htake :
        ((sortByLe (fun a b => a.2.completedAtKey ≤ b.2.completedAtKey)
            (pyDictSet cache tid r)).map Prod.fst).take
          ((pyDictSet cache tid r).length - TaskProcessor.max_cache_size)
          = [k0] := by
      rw [h101, hk]
      simp [TaskProcessor.max_cache_size]
    have hmem : k0 ∈ (pyDictSet cache tid r).map Prod.fst := by
      have : k0 ∈ (sortByLe (fun a b => a.2.completedAtKey ≤ b.2.completedAtKey)
          (pyDictSet cache tid r)).map Prod.fst := by
        rw [hk]; exact List.mem_cons_self _ _
      exact ((hperm.map Prod.fst).mem_iff).mp this
    dsimp only
    rw [htake, filter_drop_one_key_length _ k0 hnd' hmem]
    omega
  · rw [if_neg hb]
    unfold TaskProcessor.max_cache_size at hb
    omega

/-! ## Claim theorems -/

/-- Claim C1: the spec says tasks enqueued with priorities [5, 1, 3] (in
that insertion order) begin processing in ascending priority order 1, 3, 5.
The processor's queue is a plain FIFO queue.Queue (processor.py line 23),
even though the worker's comment speaks of a priority queue, so the three
tasks begin processing in insertion order 5, 1, 3 and not in the claimed
order. -/
theorem taskQueue_fifo_not_priority :
    TaskProcessor.beginOrder queueC1 = [((5 : Int), "a"), (1, "b"), (3, "c")]
    ∧ TaskProcessor.beginOrder queueC1 ≠ [((1 : Int), "b"), (3, "c"), (5, "a")] := by
  have h1 : TaskProcessor.beginOrder queueC1
      = [((5 : Int), "a"), (1, "b"), (3, "c")] := rfl
  refine ⟨h1, fun h => ?_⟩
  rw [h1] at h
  exact absurd h (by decide)

/-- Claim C4: update_status "off" yields a payload whose tasks entry has no
value while update_status "on" yields an empty tasks dict, and the payload
carries a descriptor entry exactly when a (truthy) descriptor was
configured, in which case it is the configured one. -/
theorem update_status_payload_shape (fb : FirebaseClient) (status : String) :
    (Firebase.update_status fb "off").tasks = none
    ∧ (Firebase.update_status fb "on").tasks = some []
    ∧ ((Firebase.update_status fb status).descriptor ≠ none
        ↔ fb.descriptor.truthy = true)
    ∧ (fb.descriptor.truthy = true →
        (Firebase.update_status fb status).descriptor = some fb.descriptor) := by
  refine ⟨rfl, rfl, ?_, ?_⟩
  · unfold Firebase.update_status
    by_cases h : fb.descriptor.truthy = true <;> simp [h]
  · intro h
    unfold Firebase.update_status
    simp [h]

/-- Witness for C4 at a configured descriptor. -/
theorem update_status_payload_shape_witness :
    (Firebase.update_status ⟨.vstr "lab machine", "PC"⟩ "on").descriptor
      = some (.vstr "lab machine") :=
  (update_status_payload_shape ⟨.vstr "lab machine", "PC"⟩ "on").2.2.2 (by decide)

/-- Claim C6: a response status outside 200..299 raises a
realtime-database error carrying the status code and body, a request-level
failure raises the same error type, a 2xx response with a whitespace-only
body yields the empty object, and otherwise the parsed body is returned. -/
theorem make_request_errors (status_code : Nat) (text : String) (json : PyVal)
    (msg : String) :
    (¬ (200 ≤ status_code ∧ status_code < 300) →
      Firebase.make_request (.response status_code text json)
        = .error { message := "Firebase API error: " ++ toString status_code
                 , details := .vdict [ ("status_code", .vint status_code)
                                     , ("text", .vstr text) ] })
    ∧ Firebase.make_request (.requestException msg)
        = .error { message := "Firebase request error: " ++ msg
                 , details := .vnone }
    ∧ (200 ≤ status_code → status_code < 300 → pyStrip text = "" →
        Firebase.make_request (.response status_code text json)
          = .ok (.vdict []))
    ∧ (200 ≤ status_code → status_code < 300 → pyStrip text ≠ "" →
        Firebase.make_request (.response status_code text json) = .ok json) := by
  refine ⟨?_, rfl, ?_, ?_⟩
  · intro h
    have hcond : (200 ≤ status_code && status_code < 300) = false := by
      by_cases h1 : 200 ≤ status_code
      · have h2 : ¬ status_code < 300 := fun h2 => h ⟨h1, h2⟩
        simp [h1, h2]
      · simp [h1]
    unfold Firebase.make_request
    dsimp only
    rw [hcond]
    rfl
  · intro h1 h2 h3
    have hcond : (200 ≤ status_code && status_code < 300) = true := by
      simp [h1, h2]
    unfold Firebase.make_request
    dsimp only
    rw [hcond]
    simp [h3]
  · intro h1 h2 h3
    have hcond : (200 ≤ status_code && status_code < 300) = true := by
      simp [h1, h2]
    unfold Firebase.make_request
    dsimp only
    rw [hcond]
    simp [h3]

/-- Witness for C6 at a 404 response and at a 200 response with blank
body. -/
theorem make_request_errors_witness :
    Firebase.make_request (.response 404 "not found" .vnone)
      = .error { message := "Firebase API error: 404"
               , details := .vdict [ ("status_code", .vint 404)
                                   , ("text", .vstr "not found") ] }
    ∧ Firebase.make_request (.response 200 "  " .vnone) = .ok (.vdict []) :=
  ⟨(make_request_errors 404 "not found" .vnone "x").1 (by omega),
   (make_request_errors 200 "  " .vnone "x").2.2.1 (by omega) (by omega) rfl⟩

/-- Claim C7: validate_required_keys answers nothing exactly when every
required key has a truthy configured value, any message it does return lists
exactly the keys with falsy (absent or empty) values, and Config.get returns
the stored value when the key is present and the caller's default exactly
when it is absent. -/
theorem config_validate_and_get (c : Config) (keys : List String) (k : String)
    (d v : PyVal) :
    (Config.validate_required_keys c keys = none ↔
      ∀ key ∈ keys, (Config.get c key .vnone).truthy = true)
    ∧ (∀ msg, Config.validate_required_keys c keys = some msg →
        msg = "Missing required configuration: "
          ++ String.intercalate ", "
              (keys.filter (fun key => !(Config.get c key .vnone).truthy)))
    ∧ (c.config.lookup k = some v → Config.get c k d = v)
    ∧ (c.config.lookup k = none → Config.get c k d = d) := by
  refine ⟨?_, ?_, ?_, ?_⟩
  · unfold Config.validate_required_keys
    constructor
    · intro h key hkey
      by_cases hf : keys.filter (fun key => !(Config.get c key .vnone).truthy) = []
      · have := List.filter_eq_nil_iff.mp hf key hkey
        simpa using this
      · simp [hf] at h
    · intro hall
      have hf : keys.filter (fun key => !(Config.get c key .vnone).truthy) = [] := by
        apply List.filter_eq_nil_iff.mpr
        intro a ha
        simp [hall a ha]
      simp [hf]
  · intro msg h
    unfold Config.validate_required_keys at h
    by_cases hf : keys.filter (fun key => !(Config.get c key .vnone).truthy) = []
    · simp [hf] at h
    · simp [hf] at h
      exact h.symm
  · intro h
    unfold Config.get
    rw [h]
  · intro h
    unfold Config.get
    rw [h]

/-- Witness for C7: an unset key falls back to the caller's default. -/
theorem config_validate_and_get_witness :
    Config.get ⟨[("FIREBASE_PROJECT_ID", .vstr "p")]⟩ "DESCRIPTOR"
        (.vstr "default") = .vstr "default" :=
  (config_validate_and_get ⟨[("FIREBASE_PROJECT_ID", .vstr "p")]⟩ []
    "DESCRIPTOR" (.vstr "default") .vnone).2.2.2 rfl

theorem scaledDim_trunc_zero : scaledDim 10 50 1000 = 0 := by
  unfold scaledDim pyInt
  rw [if_pos (by norm_num)]
  rw [show (((10 : ℤ) : ℚ) * (((50 : ℤ) : ℚ) / ((1000 : ℤ) : ℚ)))
      = ((1 : ℚ) / 2) by norm_num]
  rw [Int.floor_eq_zero_iff, Set.mem_Ico]
  norm_num

/-- Claim C8 counterexample: a 1000x10 image resized with width 50 and the
aspect ratio kept truncates the aspect-ratio height int(10 * (50 / 1000))
to 0, and the source's or-fallback (height = height or current_height) then
substitutes the original height: the result is (50, 10), not the dimension
computed from the original aspect ratio, so the claim's general clause
fails on this input. -/
theorem resize_image_fallback_counterexample :
    resize_image 1000 10 (some 50) none true = .ok (50, 10)
    ∧ scaledDim 10 50 1000 = 0
    ∧ resize_image 1000 10 (some 50) none true
        ≠ .ok (50, scaledDim 10 50 1000) := by
  have h1 : resize_image 1000 10 (some 50) none true = .ok (50, 10) := by
    unfold resize_image
    dsimp only
    rw [scaledDim_trunc_zero]
    simp
  refine ⟨h1, scaledDim_trunc_zero, fun h => ?_⟩
  rw [h1, scaledDim_trunc_zero] at h
  exact absurd (Except.ok.inj h) (by decide)

/-- Claim C8 (amended): resizing a 100x50 image to width 50 with the
aspect ratio kept yields 50x25; calling resize_image with neither dimension
raises the invalid-input ValueError; with keep_aspect_ratio and exactly one
positive dimension given, the missing one is computed from the original
aspect ratio when that computed value is nonzero, while a zero-truncated
computed dimension is replaced by the corresponding original dimension
through the Python or-fallback. -/
theorem resize_image_aspect (w0 h0 w h : Int) (kar : Bool)
    (hw0 : 0 < w0) (hh0 : 0 < h0) :
    resize_image 100 50 (some 50) none true = .ok (50, 25)
    ∧ resize_image w0 h0 none none kar
        = .error "At least one of width or height must be provided"
    ∧ (0 < w → scaledDim h0 w w0 ≠ 0 →
        resize_image w0 h0 (some w) none true = .ok (w, scaledDim h0 w w0))
    ∧ (0 < w → scaledDim h0 w w0 = 0 →
        resize_image w0 h0 (some w) none true = .ok (w, h0))
    ∧ (0 < h → scaledDim w0 h h0 ≠ 0 →
        resize_image w0 h0 none (some h) true = .ok (scaledDim w0 h h0, h))
    ∧ (0 < h → scaledDim w0 h h0 = 0 →
        resize_image w0 h0 none (some h) true = .ok (w0, h)) := by
  have hs : scaledDim 50 50 100 = 25 := by
    unfold scaledDim pyInt
    rw [show (((50 : ℤ) : ℚ) * (((50 : ℤ) : ℚ) / ((100 : ℤ) : ℚ))) = ((25 : ℤ) : ℚ) by norm_num]
    simp
  refine ⟨?_, rfl, ?_, ?_, ?_, ?_⟩
  · unfold resize_image
    dsimp only
    rw [hs]
    simp
  · intro hw hne
    have hw' : w ≠ 0 := by omega
    unfold resize_image
    dsimp only
    simp [hw', hne]
  · intro hw hz
    have hw' : w ≠ 0 := by omega
    unfold resize_image
    dsimp only
    simp [hw', hz]
  · intro hh hne
    have hh' : h ≠ 0 := by omega
    unfold resize_image
    dsimp only
    simp [hh', hne]
  · intro hh hz
    have hh' : h ≠ 0 := by omega
    unfold resize_image
    dsimp only
    simp [hh', hz]

/-- Witness for C8 (amended): the aspect-ratio rule at the 100x50, width 50
instance and the or-fallback at the 1000x10, width 50 instance. -/
theorem resize_image_aspect_witness :
    resize_image 100 50 (some 50) none true = .ok (50, 25)
    ∧ resize_image 1000 10 (some 50) none true = .ok (50, 10) :=
  ⟨(resize_image_aspect 100 50 50 25 true (by omega) (by omega)).1,
   (resize_image_aspect 1000 10 50 25 true (by omega) (by omega)).2.2.2.1
     (by omega) scaledDim_trunc_zero⟩

/-- Claim C9: the outgoing user message carries a screenshot exactly when
the lowercased input contains one of the ten trigger keywords; in
particular a message with no keyword is sent as plain text and one
mentioning the screen is sent with the base64 data url attached. -/
theorem screenshot_keyword_gate (user_input screenshot_b64 : String) :
    ((build_user_message user_input screenshot_b64).hasImage = true
      ↔ ∃ k ∈ image_keywords, pyInStr k (pyLower user_input) = true)
    ∧ build_user_message "what time is it" screenshot_b64
        = .text "what time is it"
    ∧ build_user_message "can you see what's on my screen" screenshot_b64
        = .textWithImage "can you see what's on my screen"
            ("data:image/png;base64," ++ screenshot_b64) := by
  refine ⟨?_, ?_, ?_⟩
  · have hb : (build_user_message user_input screenshot_b64).hasImage
        = needs_image user_input := by
      unfold build_user_message
      by_cases hni : needs_image user_input = true <;>
        simp [hni, ChatContent.hasImage]
    rw [hb]
    unfold needs_image
    rw [List.any_eq_true]
  · have : needs_image "what time is it" = false := by decide
    unfold build_user_message
    rw [this]
    rfl
  · have : needs_image "can you see what's on my screen" = true := by decide
    unfold build_user_message
    rw [this]
    rfl

/-- Claim C10: when the stripped input-field text is empty, process_input
changes nothing: no transcript line, no chat_history entry, no worker
thread, and even the field itself is untouched. -/
theorem process_input_empty_noop (assistant_name : String) (st : GuiState)
    (h : pyStrip st.input_field = "") :
    AssistantGUI.process_input assistant_name st = st := by
  unfold AssistantGUI.process_input
  simp [h]

/-- Witness for C10 on a whitespace-only input field. -/
theorem process_input_empty_noop_witness :
    AssistantGUI.process_input "CAS-E" stC10 = stC10 :=
  process_input_empty_noop "CAS-E" stC10 (by decide)

/-- Claim C3: when a polled task's type has no registered handler and no
default handler was supplied, _handle_task completes the task with exactly
the rejection record naming the type, and complete_task's first database
request is the DELETE removing the task from the device's task queue. -/
theorem handle_unregistered_task (fb : FirebaseClient)
    (handlers : List (String × FbHandler)) (task_id : String)
    (task_data : List (String × PyVal))
    (h : fbLookupHandler handlers (fbTaskType task_data) = none) :
    Firebase.handle_task fb handlers none task_id task_data
      = (Firebase.complete_task fb task_id (some (.vdict
          [ ("error", .vstr ("No handler for task type: "
              ++ (fbTaskType task_data).format))
          , ("status", .vstr "rejected") ]))).1
    ∧ (Firebase.handle_task fb handlers none task_id task_data).head?
        = some (.delete ("devices/" ++ fb.computer_name ++ "/tasks/"
            ++ task_id)) := by
  constructor
  · unfold Firebase.handle_task
    dsimp only
    rw [h]
  · unfold Firebase.handle_task
    dsimp only
    rw [h]
    rfl

/-- Witness for C3 at an unregistered task type with an empty handler
table. -/
theorem handle_unregistered_task_witness :
    Firebase.handle_task fbC3 [] none "task1" [("type", .vstr "jump")]
      = [ .delete "devices/PC/tasks/task1"
        , .put "completed_tasks/PC/task1"
            (.vdict [ ("result", .vdict
                        [ ("error", .vstr "No handler for task type: jump")
                        , ("status", .vstr "rejected") ])
                    , ("completed_at", serverTimestamp) ]) ] := by
  rw [(handle_unregistered_task fbC3 [] "task1" [("type", .vstr "jump")] rfl).1]
  rfl

set_option maxRecDepth 200000 in
/-- Claim C5: caching a completed task never leaves the result cache above
its capacity of 100 entries (given a well-formed cache within capacity),
and in the concrete scenario of 105 tasks completing in order the cache
ends with exactly 100 entries, the 100 most recently completed, the 5
oldest by completed_at having been evicted. -/
theorem cache_capacity_and_eviction (cache : List (String × TaskData))
    (tid : String) (r : TaskData) (hnd : (cache.map Prod.fst).Nodup)
    (hlen : cache.length ≤ 100) :
    (TaskProcessor.cache_result cache tid r).length ≤ 100
    ∧ scenarioC5.map Prod.fst = ((List.range 105).drop 5).map toString
    ∧ scenarioC5.length = 100 := by
  have h3 : scenarioC5.map Prod.fst = ((List.range 105).drop 5).map toString := by
    decide
  refine ⟨cache_result_length_le cache tid r hnd hlen, h3, ?_⟩
  have hlen3 := congrArg List.length h3
  rw [List.length_map, List.length_map] at hlen3
  rw [hlen3]
  decide

/-- Witness for C5: the invariant applied to the empty cache. -/
theorem cache_capacity_and_eviction_witness :
    (TaskProcessor.cache_result [] "0" tdC5).length ≤ 100 :=
  (cache_capacity_and_eviction [] "0" tdC5 (by simp) (by simp)).1

/-- Claim C2 counterexample: handle_send_message given the raw non-JSON
string params "hello" rejects the parameter form itself instead of
treating the bare string as its most relevant parameter, and the task
error it raises is not a missing-required-field report; so not every
handler accepts a raw string. -/
theorem send_message_rejects_raw_string :
    handle_send_message envC2 "t1" [("params", .vstr "hello")]
      = .error "Send message error: Invalid parameters format"
    ∧ handle_send_message envC2 "t1" [("params", .vstr "hello")]
      ≠ .error "Send message error: Missing required parameters: message or person" := by
  have h1 : handle_send_message envC2 "t1" [("params", .vstr "hello")]
      = .error "Send message error: Invalid parameters format" := rfl
  refine ⟨h1, fun h => ?_⟩
  rw [h1] at h
  exact absurd (Except.error.inj h) (by decide)

/-- Claim C2 (amended): the handlers taking a single primary value
(open_app, run_command, get_info, use_cursor) treat a bare string param
exactly as the structured object supplying that value, and handle_open_app
reports the missing app_name on an empty object; the handlers with several
required fields (send_message, send_email, check_website) treat a
JSON-encoded object string exactly as the structured object, reject a raw
non-JSON string as an invalid parameter format, and each reports its
missing required fields with a task error: handle_send_message on an
object lacking message or person, handle_send_email on one lacking
people, subject or message, and handle_check_website on one lacking
url. -/
theorem handlers_param_forms (env : HandlerEnv) (task_id s : String)
    (entries : List (String × PyVal)) :
    (handle_open_app env task_id [("params", .vstr s)]
      = handle_open_app env task_id [("params", .vdict [("app_name", .vstr s)])])
    ∧ (handle_run_command env task_id [("params", .vstr s)]
      = handle_run_command env task_id [("params", .vdict [("command", .vstr s)])])
    ∧ (handle_get_info env task_id [("params", .vstr s)]
      = handle_get_info env task_id [("params", .vdict [("input", .vstr s)])])
    ∧ (handle_use_cursor env task_id [("params", .vstr s)]
      = handle_use_cursor env task_id [("params", .vdict [("prompt", .vstr s)])])
    ∧ (handle_open_app env task_id [("params", .vdict [])]
      = .error "Open app error: Missing required parameter: app_name")
    ∧ (jsonLoads s = some (.vdict entries) →
        handle_send_message env task_id [("params", .vstr s)]
          = handle_send_message env task_id [("params", .vdict entries)]
        ∧ handle_send_email env task_id [("params", .vstr s)]
          = handle_send_email env task_id [("params", .vdict entries)]
        ∧ handle_check_website env task_id [("params", .vstr s)]
          = handle_check_website env task_id [("params", .vdict entries)])
    ∧ (jsonLoads s = none →
        handle_send_message env task_id [("params", .vstr s)]
          = .error "Send message error: Invalid parameters format"
        ∧ handle_send_email env task_id [("params", .vstr s)]
          = .error "Send email error: Invalid parameters format"
        ∧ handle_check_website env task_id [("params", .vstr s)]
          = .error "Website check error: Invalid parameters format")
    ∧ ((pyDictGet entries "message" .vnone).truthy = false
        ∨ (pyDictGet entries "person" .vnone).truthy = false →
        handle_send_message env task_id [("params", .vdict entries)]
          = .error "Send message error: Missing required parameters: message or person")
    ∧ ((pyDictGet entries "people" .vnone).truthy = false
        ∨ (pyDictGet entries "subject" .vnone).truthy = false
        ∨ (pyDictGet entries "message" .vnone).truthy = false →
        handle_send_email env task_id [("params", .vdict entries)]
          = .error "Send email error: Missing required parameters: people, subject, or message")
    ∧ ((pyDictGet entries "url" .vnone).truthy = false →
        handle_check_website env task_id [("params", .vdict entries)]
          = .error "Website check error: Missing required parameter: url") := by
  refine ⟨rfl, rfl, rfl, rfl, rfl, ?_, ?_, ?_, ?_, ?_⟩
  · intro h
    refine ⟨?_, ?_, ?_⟩
    · rw [show handle_send_message env task_id [("params", .vstr s)]
          = wrapTaskError "Send message error: "
              (match jsonLoads s with
               | some v => send_message_core env v
               | none => .error "Invalid parameters format") from rfl, h]
      rfl
    · rw [show handle_send_email env task_id [("params", .vstr s)]
          = wrapTaskError "Send email error: "
              (match jsonLoads s with
               | some v => send_email_core env v
               | none => .error "Invalid parameters format") from rfl, h]
      rfl
    · rw [show handle_check_website env task_id [("params", .vstr s)]
          = wrapTaskError "Website check error: "
              (match jsonLoads s with
               | some v => check_website_core env v
               | none => .error "Invalid parameters format") from rfl, h]
      rfl
  · intro h
    refine ⟨?_, ?_, ?_⟩
    · rw [show handle_send_message env task_id [("params", .vstr s)]
          = wrapTaskError "Send message error: "
              (match jsonLoads s with
               | some v => send_message_core env v
               | none => .error "Invalid parameters format") from rfl, h]
      rfl
    · rw [show handle_send_email env task_id [("params", .vstr s)]
          = wrapTaskError "Send email error: "
              (match jsonLoads s with
               | some v => send_email_core env v
               | none => .error "Invalid parameters format") from rfl, h]
      rfl
    · rw [show handle_check_website env task_id [("params", .vstr s)]
          = wrapTaskError "Website check error: "
              (match jsonLoads s with
               | some v => check_website_core env v
               | none => .error "Invalid parameters format") from rfl, h]
      rfl
  · intro h
    rw [show handle_send_message env task_id [("params", .vdict entries)]
        = wrapTaskError "Send message error: "
            (send_message_core env (.vdict entries)) from rfl]
    unfold send_message_core
    dsimp only [pyGetMethod]
    rcases h with h | h <;> simp [h, wrapTaskError]
  · intro h
    rw [show handle_send_email env task_id [("params", .vdict entries)]
        = wrapTaskError "Send email error: "
            (send_email_core env (.vdict entries)) from rfl]
    unfold send_email_core
    dsimp only [pyGetMethod, pyGetMethodD]
    rcases h with h | h | h <;> simp [h, wrapTaskError]
  · intro h
    rw [show handle_check_website env task_id [("params", .vdict entries)]
        = wrapTaskError "Website check error: "
            (check_website_core env (.vdict entries)) from rfl]
    unfold check_website_core
    dsimp only [pyGetMethod]
    simp [h, wrapTaskError]

/-- Witness for C2 (amended): the JSON branch hypotheses at Notepad-style
inputs. -/
theorem handlers_param_forms_witness :
    handle_send_message envC2 "t1" [("params", .vstr "Notepad")]
      = .error "Send message error: Invalid parameters format"
    ∧ handle_send_message envC2 "t1"
        [("params", .vstr "\x7b\"message\": \"hi\", \"person\": \"Bob\"\x7d")]
      = handle_send_message envC2 "t1"
          [("params", .vdict [("message", .vstr "hi"), ("person", .vstr "Bob")])]
    ∧ handle_send_message envC2 "t1" [("params", .vdict [("message", .vstr "hi")])]
      = .error "Send message error: Missing required parameters: message or person"
    ∧ handle_send_email envC2 "t1" [("params", .vdict [("people", .vstr "a@b.c")])]
      = .error "Send email error: Missing required parameters: people, subject, or message"
    ∧ handle_check_website envC2 "t1" [("params", .vdict [("context", .vstr "news")])]
      = .error "Website check error: Missing required parameter: url" :=
  ⟨((handlers_param_forms envC2 "t1" "Notepad" []).2.2.2.2.2.2.1 (by rfl)).1,
   ((handlers_param_forms envC2 "t1" "\x7b\"message\": \"hi\", \"person\": \"Bob\"\x7d"
      [("message", .vstr "hi"), ("person", .vstr "Bob")]).2.2.2.2.2.1 (by rfl)).1,
   (handlers_param_forms envC2 "t1" ""
      [("message", .vstr "hi")]).2.2.2.2.2.2.2.1 (Or.inr (by rfl)),
   (handlers_param_forms envC2 "t1" ""
      [("people", .vstr "a@b.c")]).2.2.2.2.2.2.2.2.1 (Or.inr (Or.inl (by rfl))),
   (handlers_param_forms envC2 "t1" ""
      [("context", .vstr "news")]).2.2.2.2.2.2.2.2.2 (by rfl)⟩

/-- Witness for C9 at the two concrete chat turns. -/
theorem screenshot_keyword_gate_witness :
    build_user_message "what time is it" "IMGB64" = .text "what time is it"
    ∧ build_user_message "can you see what's on my screen" "IMGB64"
        = .textWithImage "can you see what's on my screen"
            ("data:image/png;base64," ++ "IMGB64") :=
  ⟨(screenshot_keyword_gate "what time is it" "IMGB64").2.1,
   (screenshot_keyword_gate "can you see what's on my screen" "IMGB64").2.2⟩
